import Mathlib

/-!
# Verification of `dev.py` (phoenix-ide development/deployment orchestrator)

A shallow embedding of the lifecycle-management core of `dev.py`:
worktree-derived port assignment, the exclusive database lock
(`DatabaseLock`), the PID-file process supervisor (`is_process_running`,
`get_pid`, `stop_process`, `cmd_down`), the systemd unit generator
(`generate_systemd_service`), and the deployment branch of
`native_prod_deploy` / `lima_prod_deploy`.

OS effects (file system, `fcntl.flock`, `os.kill`, `subprocess`) are
modelled by explicit state passing: the world a function touches is an
argument, and the updated world is part of the result.  Python
exceptions are modelled with `Except`.
-/

namespace PhoenixDev

/-! ## Port derivation (dev.py lines 44-105)

`get_port_offset` computes `int(md5(str(ROOT)).hexdigest()[:4], 16) % PORT_RANGE`.
The md5 prefix value is an arbitrary natural number; we take it as the
parameter `pathHash`, so quantifying over `pathHash` quantifies over
every possible worktree path hash. -/

/-- `BASE_PHOENIX_PORT = 8000` (dev.py line 46). -/
def BASE_PHOENIX_PORT : Nat := 8000

/-- `BASE_VITE_PORT = 8025` (dev.py line 47). -/
def BASE_VITE_PORT : Nat := 8025

/-- `PORT_RANGE = 25` (dev.py line 48). -/
def PORT_RANGE : Nat := 25

/-- `get_port_offset` (dev.py lines 96-99): the worktree path hash
(`int(h[:4], 16)` for `h = md5(str(ROOT)).hexdigest()`) reduced modulo
`PORT_RANGE`. -/
def get_port_offset (pathHash : Nat) : Nat :=
  pathHash % PORT_RANGE

/-- `get_default_ports` (dev.py lines 102-105): `(BASE_PHOENIX_PORT + offset,
BASE_VITE_PORT + offset)`. -/
def get_default_ports (pathHash : Nat) : Nat × Nat :=
  (BASE_PHOENIX_PORT + get_port_offset pathHash,
   BASE_VITE_PORT + get_port_offset pathHash)

/-! ## Process liveness probe (dev.py lines 178-184)

`os.kill(pid, 0)` either succeeds (the process exists and may be
signalled), raises `ProcessLookupError`/ESRCH (no such process), or
raises `PermissionError`/EPERM (the process exists but belongs to
another user).  All three outcomes matter for claim C8, so the probe
result is a three-valued type. -/

/-- Outcome of the zero-signal probe `os.kill(pid, 0)`. -/
inductive ProbeResult where
  | ok : ProbeResult
  | esrch : ProbeResult
  | eperm : ProbeResult
  deriving DecidableEq, Repr

/-- `is_process_running` (dev.py lines 178-184): returns `True` when
`os.kill(pid, 0)` succeeds and `False` on any `OSError` — both ESRCH
and EPERM land in the single `except OSError` arm. -/
def is_process_running (probe : Int → ProbeResult) (pid : Int) : Bool :=
  match probe pid with
  | .ok => true
  | .esrch => false
  | .eperm => false

/-! ## Python `int(...)` parsing

`get_pid` does `int(pid_file.read_text().strip())`, which raises
`ValueError` on anything that is not an optionally-signed decimal
integer.  (Python also accepts underscore digit separators; no claim
depends on that corner, and a string of plain signed digits parses the
same way in both.) -/

/-- Value of a nonempty all-digit character list, `none` otherwise. -/
def digitsVal : List Char → Nat → Option Nat
  | [], acc => some acc
  | c :: cs, acc =>
    if c.isDigit then digitsVal cs (10 * acc + (c.toNat - 48)) else none

/-- Decimal parse of a nonempty digit string. -/
def decimalVal : List Char → Option Nat
  | [] => none
  | l => digitsVal l 0

/-- Python `str.strip()`: drop whitespace from both ends. -/
def pyStrip (s : String) : String :=
  String.mk
    (((s.data.dropWhile Char.isWhitespace).reverse.dropWhile
        Char.isWhitespace).reverse)

/-- Model of Python `int(s)` for an already-stripped string `s`:
an optional sign followed by at least one decimal digit, else
`ValueError` (`none`). -/
def pyInt (s : String) : Option Int :=
  match s.data with
  | '-' :: rest => (decimalVal rest).map (fun n => -(n : Int))
  | '+' :: rest => (decimalVal rest).map (fun n => (n : Int))
  | l => (decimalVal l).map (fun n => (n : Int))

/-! ## `get_pid` (dev.py lines 187-195)

The PID file is modelled as `Option String` (`none` = the file does not
exist, `some s` = it exists with content `s`).  `get_pid` returns the
parsed live PID (or `none`), paired with the PID file's state after the
call; a `ValueError` from `int(...)` is `Except.error ()`, and in that
case the file is left untouched (the `unlink` on line 194 is never
reached). -/

/-- `get_pid` (dev.py lines 187-195). -/
def get_pid (content : Option String) (probe : Int → ProbeResult) :
    Except Unit (Option Int) × Option String :=
  match content with
  | none => (.ok none, none)
  | some s =>
    match pyInt (pyStrip s) with
    | none => (.error (), some s)
    | some pid =>
      if is_process_running probe pid then (.ok (some pid), some s)
      else (.ok none, none)

/-! ## `stop_process` (dev.py lines 198-224)

The target process's liveness changes over time, so the probe is
time-indexed: `probeAt t pid` is the outcome of `os.kill(pid, 0)` at
step `t`.  `get_pid` probes at step 0; the i-th poll of the graceful
wait loop probes at step `1 + i`.  `termRaises` / `killRaises` say
whether the corresponding `os.kill(pid, SIG...)` raises `OSError`
(e.g. the process vanished in between); both are caught by the
`except OSError` arm, after which the `finally` block still runs. -/

/-- What `stop_process` did: which signals were sent, how often it
polled and slept, whether the PID file was unlinked, and whether the
global `_db_lock` was released. -/
structure StopEvents where
  sentTerm : Bool
  termRaised : Bool
  polls : Nat
  sleepTenths : Nat
  sentKill : Bool
  pidFileDeleted : Bool
  lockReleased : Bool
  deriving DecidableEq, Repr

/-- The graceful-wait loop of `stop_process` (dev.py lines 208-213):
`for _ in range(10): if not is_process_running(pid): break; time.sleep(0.1)
else: os.kill(pid, SIGKILL)`.  Returns (loop exhausted so SIGKILL is
needed, number of liveness polls, number of 0.1-second sleeps); called
with `remaining = 10` and `t = 1`. -/
def stopLoop (probeAt : Nat → Int → ProbeResult) (pid : Int) :
    Nat → Nat → Bool × Nat × Nat
  | _, 0 => (true, 0, 0)
  | t, n + 1 =>
    if is_process_running (probeAt t) pid then
      let r := stopLoop probeAt pid (t + 1) n
      (r.1, r.2.1 + 1, r.2.2 + 1)
    else
      (false, 1, 0)

/-- `stop_process` (dev.py lines 198-224).  Returns the Python return
value (`Except.error ()` when `get_pid`'s `ValueError` propagates),
the events, the PID file's final state, and the final `_db_lock`
global.  The lock-release arm fires only for `name = "Phoenix"` with a
non-`none` `_db_lock`, inside the `finally` block — i.e. only on the
live-PID path. -/
def stop_process (content : Option String) (probeAt : Nat → Int → ProbeResult)
    (termRaises killRaises : Bool) (name : String) (dbLock : Option Nat) :
    Except Unit Bool × StopEvents × Option String × Option Nat :=
  let noEvents : StopEvents :=
    { sentTerm := false, termRaised := false, polls := 0, sleepTenths := 0,
      sentKill := false, pidFileDeleted := false, lockReleased := false }
  match get_pid content (probeAt 0) with
  | (.error (), content') => (.error (), noEvents, content', dbLock)
  | (.ok none, content') => (.ok false, noEvents, content', dbLock)
  | (.ok (some pid), _) =>
    let releases := name == "Phoenix" && dbLock.isSome
    let dbLock' := if releases then none else dbLock
    if termRaises then
      -- os.kill(pid, SIGTERM) raised OSError: caught, then finally runs.
      (.ok true,
        { sentTerm := true, termRaised := true, polls := 0, sleepTenths := 0,
          sentKill := false, pidFileDeleted := true, lockReleased := releases },
        none, dbLock')
    else
      -- A raising SIGKILL is caught by the same except arm; finally runs
      -- either way, so killRaises changes nothing observable.
      let _ := killRaises
      let r := stopLoop probeAt pid 1 10
      (.ok true,
        { sentTerm := true, termRaised := false, polls := r.2.1,
          sleepTenths := r.2.2, sentKill := r.1,
          pidFileDeleted := true, lockReleased := releases },
        none, dbLock')

/-! ## `DatabaseLock` (dev.py lines 120-171)

The lock world: whether the lock file exists, its content, which open
file description (if any) currently holds the `flock` exclusive lock,
and how many descriptors have been closed so far (to state
"closed exactly once").  A `DatabaseLock` handle owns at most the one
descriptor recorded in `fd`. -/

/-- State of the lock file and its advisory lock. -/
structure LockWorld where
  fileExists : Bool
  fileContent : String
  flockHolder : Option Nat
  closedCount : Nat
  deriving DecidableEq, Repr

/-- A `DatabaseLock` handle (dev.py lines 120-126): `self.fd`. -/
structure DatabaseLock where
  fd : Option Nat
  deriving DecidableEq, Repr

/-- `DatabaseLock.acquire` (dev.py lines 128-147): open (creating if
absent) the lock file, `flock(LOCK_EX | LOCK_NB)`; on success truncate,
write the caller's PID and return `True`; if any holder already owns
the flock, close the freshly opened descriptor and return `False`.
`me` identifies the open file description this call creates (and hence
the holder on success); `pid` is `os.getpid()`.  `LOCK_NB` means the
call returns immediately either way: the model is a total function of
the current holder. -/
def DatabaseLock.acquire (lk : DatabaseLock) (w : LockWorld) (me pid : Nat) :
    Bool × DatabaseLock × LockWorld :=
  -- os.open(..., O_RDWR | O_CREAT): the file exists afterwards,
  -- existing content is preserved.
  let w1 : LockWorld := { w with fileExists := true }
  match w1.flockHolder with
  | some h =>
    (false, { lk with fd := none },
      { w1 with flockHolder := some h, closedCount := w1.closedCount + 1 })
  | none =>
    (true, { lk with fd := some me },
      { w1 with flockHolder := some me,
                fileContent := toString pid ++ "\n" })

/-- `DatabaseLock.release` (dev.py lines 149-159): if a descriptor is
held, unlock, close it, forget it, and best-effort unlink the lock
file; otherwise do nothing. -/
def DatabaseLock.release (lk : DatabaseLock) (w : LockWorld) :
    DatabaseLock × LockWorld :=
  match lk.fd with
  | none => (lk, w)
  | some _ =>
    ({ lk with fd := none },
      { w with flockHolder := none, closedCount := w.closedCount + 1,
               fileExists := false })

/-- `with DatabaseLock() as ...:` (dev.py lines 161-171).  `__enter__`
calls `acquire` and raises `RuntimeError` (modelled `Except.error none`)
on failure — in that case `__exit__` never runs.  On success the body
runs; whether it returns normally (`Except.ok`) or raises
(`Except.error e`, propagated as `Except.error (some e)`), `__exit__`
calls `release`. -/
def withDatabaseLock {α ε : Type} (w : LockWorld) (me pid : Nat)
    (body : LockWorld → Except ε α × LockWorld) :
    Except (Option ε) α × DatabaseLock × LockWorld :=
  let lk0 : DatabaseLock := { fd := none }
  let acq := lk0.acquire w me pid
  if acq.1 then
    let bw := body acq.2.2
    let rl := acq.2.1.release bw.2
    match bw.1 with
    | .ok a => (.ok a, rl.1, rl.2)
    | .error e => (.error (some e), rl.1, rl.2)
  else
    (.error none, acq.2.1, acq.2.2)

/-! ## `cmd_down` (dev.py lines 357-372)

`cmd_down` stops Vite, stops Phoenix, then — whether or not anything
was running, and regardless of who holds the advisory lock — unlinks
the worktree's lock file if it exists.  Unlinking a file does not
release an `flock` held on its open descriptor, so `lockHolder` is
untouched by the unlink. -/

/-- The on-disk / in-process state `cmd_down` touches. -/
structure DownState where
  viteFile : Option String
  phoenixFile : Option String
  lockExists : Bool
  lockHolder : Option Nat
  dbLock : Option Nat
  deriving DecidableEq, Repr

/-- The environment of one `cmd_down` run: time-indexed probes and
signalling outcomes for each of the two `stop_process` calls. -/
structure DownEnv where
  probeV : Nat → Int → ProbeResult
  probeP : Nat → Int → ProbeResult
  termRaisesV : Bool
  killRaisesV : Bool
  termRaisesP : Bool
  killRaisesP : Bool

/-- `cmd_down` (dev.py lines 357-372).  An uncaught `ValueError` from
either `stop_process` call propagates (`Except.error ()`); otherwise
the final state is returned.  The `DatabaseLock.release` arm inside
`stop_process` unlinks the lock file too, hence `lockExists` also
clears when that arm fired. -/
def cmd_down (st : DownState) (e : DownEnv) : Except Unit DownState :=
  match stop_process st.viteFile e.probeV e.termRaisesV e.killRaisesV
      "Vite" st.dbLock with
  | (.error (), _, _, _) => .error ()
  | (.ok _, _, vite', dbLock1) =>
    match stop_process st.phoenixFile e.probeP e.termRaisesP e.killRaisesP
        "Phoenix" dbLock1 with
    | (.error (), _, _, _) => .error ()
    | (.ok _, evP, phoenix', dbLock2) =>
      let lockExists1 := if evP.lockReleased then false else st.lockExists
      -- if lock_path.exists(): try: lock_path.unlink() except OSError: pass
      let lockExists2 := if lockExists1 then false else lockExists1
      .ok { viteFile := vite', phoenixFile := phoenix',
            lockExists := lockExists2, lockHolder := st.lockHolder,
            dbLock := dbLock2 }

/-! ## Systemd unit generation (dev.py lines 853-949) -/

/-- `SystemdConfig` (dev.py lines 853-863). -/
structure SystemdConfig where
  user : String
  db_path : String
  install_dir : String
  port : Nat
  env_file : Option String := none
  llm_gateway : Option String := none
  deriving DecidableEq, Repr

/-- The environment lines of `generate_systemd_service` (dev.py lines
913-925): the DB-path and version lines always; `EnvironmentFile=...`
inserted at the front when `env_file` is set; otherwise
`Environment=LLM_GATEWAY=...` appended when `llm_gateway` is set. -/
def serviceEnvLines (config : SystemdConfig) (version : String) :
    List String :=
  let base :=
    ["Environment=PHOENIX_DB_PATH=" ++ config.db_path,
     "Environment=PHOENIX_VERSION=" ++ version]
  match config.env_file with
  | some f => ("EnvironmentFile=" ++ f) :: base
  | none =>
    match config.llm_gateway with
    | some g => base ++ ["Environment=LLM_GATEWAY=" ++ g]
    | none => base

/-- `generate_systemd_service` (dev.py lines 907-949): the full unit
text, with the joined environment lines interpolated into the
`[Service]` section. -/
def generate_systemd_service (config : SystemdConfig) (version : String) :
    String :=
  let env_section := String.intercalate "\n" (serviceEnvLines config version)
  "[Unit]\n" ++
  "Description=Phoenix IDE\n" ++
  "Documentation=https://github.com/phoenix-ide/phoenix-ide\n" ++
  "# Socket must be ready before service starts\n" ++
  "Requires=phoenix-ide.socket\n" ++
  "After=network.target phoenix-ide.socket\n" ++
  "\n" ++
  "[Service]\n" ++
  "Type=simple\n" ++
  "User=" ++ config.user ++ "\n" ++
  env_section ++ "\n" ++
  "ExecStart=" ++ config.install_dir ++ "/phoenix-ide\n" ++
  "# SIGHUP triggers graceful shutdown; systemd restarts with same socket\n" ++
  "ExecReload=/bin/kill -HUP $MAINPID\n" ++
  "# Restart always (including after SIGHUP which exits 0)\n" ++
  "Restart=always\n" ++
  "RestartSec=1\n" ++
  "# Give connections time to drain during graceful shutdown\n" ++
  "TimeoutStopSec=30\n" ++
  "\n" ++
  "[Install]\n" ++
  "WantedBy=multi-user.target\n"

/-- A line delivering credentials via an external file:
`EnvironmentFile=<path>` (dev.py line 920). -/
def isCredFileLine (l : String) : Prop :=
  ∃ f, l = "EnvironmentFile=" ++ f

/-- A line delivering credentials via the inline gateway variable:
`Environment=LLM_GATEWAY=<url>` (dev.py line 923). -/
def isGatewayLine (l : String) : Prop :=
  ∃ g, l = "Environment=LLM_GATEWAY=" ++ g

/-! ## Deployment branch (dev.py lines 1027-1086 and 1755-1780)

The systemctl commands each deploy function issues after the unit
files are installed and enabled, as an explicit action trace. -/

/-- One service-manager action of the deploy tail. -/
inductive SvcAction where
  | queryServiceActive : SvcAction
  | querySocketActive : SvcAction
  | reloadService : SvcAction
  | stopService : SvcAction
  | startSocket : SvcAction
  | startService : SvcAction
  | sleepSeconds : Nat → SvcAction
  | journalTail : SvcAction
  | exitNonZero : SvcAction
  deriving DecidableEq, Repr

/-- The tail of `native_prod_deploy` (dev.py lines 1027-1086), given
whether `systemctl is-active` reported the service active and whether
the post-branch verification finds it active.  Active: `systemctl
reload`, sleep 2, re-query (failure only prints a warning).  Inactive:
stop any existing service, start the socket, start the service, sleep
1, re-query; on failure dump the journal and exit non-zero. -/
def nativeDeployTail (serviceActive verifyActive : Bool) : List SvcAction :=
  [.querySocketActive, .queryServiceActive] ++
  (if serviceActive then
    [.reloadService, .sleepSeconds 2, .queryServiceActive]
  else
    [.stopService, .startSocket, .startService, .sleepSeconds 1,
     .queryServiceActive] ++
    (if verifyActive then [] else [.journalTail, .exitNonZero]))

/-- The tail of `lima_prod_deploy` (dev.py lines 1755-1780): query
activity; if active, `systemctl reload`; if not, start the socket then
the service; in both cases sleep 2 and re-query, dumping the journal
and exiting non-zero if the service is not active. -/
def limaDeployTail (serviceActive verifyActive : Bool) : List SvcAction :=
  [.queryServiceActive] ++
  (if serviceActive then [.reloadService]
   else [.startSocket, .startService]) ++
  [.sleepSeconds 2, .queryServiceActive] ++
  (if verifyActive then [] else [.journalTail, .exitNonZero])

/-! ## Theorems -/

/-- C3: for every worktree path (i.e. every hash value), the derived
port offset is the path hash modulo `PORT_RANGE = 25`, so it lies in
`[0, 24]`; the Phoenix port lies in `[8000, 8024]`, the Vite port in
`[8025, 8049]` — two non-overlapping ranges — and the two ports derived
from one worktree are never equal. -/
theorem ports_in_disjoint_ranges (pathHash : Nat) :
    get_port_offset pathHash = pathHash % PORT_RANGE ∧
    get_port_offset pathHash ≤ 24 ∧
    8000 ≤ (get_default_ports pathHash).1 ∧
    (get_default_ports pathHash).1 ≤ 8024 ∧
    8025 ≤ (get_default_ports pathHash).2 ∧
    (get_default_ports pathHash).2 ≤ 8049 ∧
    (get_default_ports pathHash).1 < (get_default_ports pathHash).2 ∧
    (get_default_ports pathHash).1 ≠ (get_default_ports pathHash).2 := by
  have hlt : pathHash % 25 < 25 := Nat.mod_lt _ (by decide)
  simp [get_default_ports, get_port_offset, PORT_RANGE,
    BASE_PHOENIX_PORT, BASE_VITE_PORT]
  omega

/-- C8 counterexample: a permission-denied (EPERM) zero-signal probe is
reported by `is_process_running` exactly like a nonexistent process
(ESRCH): both yield `false`, refuting "only 'process does not exist'
yields not-alive". -/
theorem is_process_running_eperm_like_esrch :
    is_process_running (fun _ => ProbeResult.eperm) 1 = false ∧
    is_process_running (fun _ => ProbeResult.eperm) 1 =
      is_process_running (fun _ => ProbeResult.esrch) 1 ∧
    (fun _ : Int => ProbeResult.eperm) 1 ≠ ProbeResult.esrch := by
  decide

/-- C8 (amended): `is_process_running` does not distinguish
permission-denied from no-such-process — it returns `true` exactly
when the zero-signal probe succeeds, and any `OSError` (ESRCH or
EPERM alike) yields `false`. -/
theorem is_process_running_true_iff_probe_ok
    (probe : Int → ProbeResult) (pid : Int) :
    is_process_running probe pid = true ↔ probe pid = ProbeResult.ok := by
  unfold is_process_running
  cases probe pid <;> simp

/-- C4: a PID file whose recorded PID is not live is deleted by
`get_pid`, which returns `none` — the very same result, value and final
file state, that an absent PID file produces, so every read path built
on `get_pid` (status, start) treats a stale file like an absent one. -/
theorem get_pid_stale_like_absent (s : String) (probe : Int → ProbeResult)
    (pid : Int) (hparse : pyInt (pyStrip s) = some pid)
    (hdead : is_process_running probe pid = false) :
    get_pid (some s) probe = (.ok none, none) ∧
    get_pid (some s) probe = get_pid none probe := by
  simp [get_pid, hparse, hdead]

/-- C4 witness: the stale file `"12345"` with a probe reporting ESRCH. -/
theorem get_pid_stale_like_absent_witness :
    get_pid (some "12345") (fun _ => ProbeResult.esrch) = (.ok none, none) ∧
    get_pid (some "12345") (fun _ => ProbeResult.esrch) =
      get_pid none (fun _ => ProbeResult.esrch) :=
  get_pid_stale_like_absent "12345" (fun _ => ProbeResult.esrch) 12345
    (by decide) (by decide)

/-- C9: on a PID file that exists but whose content is not a decimal
integer, `get_pid` raises `ValueError` (`Except.error`) without
deleting the file, and the error propagates uncaught through
`stop_process` (hence through status/start/stop), which sends no
signal and touches neither the PID file nor the lock. -/
theorem get_pid_malformed_raises (s : String)
    (probeAt : Nat → Int → ProbeResult) (termRaises killRaises : Bool)
    (name : String) (dbLock : Option Nat)
    (hbad : pyInt (pyStrip s) = none) :
    get_pid (some s) (probeAt 0) = (.error (), some s) ∧
    stop_process (some s) probeAt termRaises killRaises name dbLock =
      (.error (),
        { sentTerm := false, termRaised := false, polls := 0,
          sleepTenths := 0, sentKill := false, pidFileDeleted := false,
          lockReleased := false },
        some s, dbLock) := by
  have h1 : get_pid (some s) (probeAt 0) = (.error (), some s) := by
    simp [get_pid, hbad]
  refine ⟨h1, ?_⟩
  unfold stop_process
  rw [h1]

/-- C9 witness: the malformed content `"garbage"`. -/
theorem get_pid_malformed_raises_witness :
    get_pid (some "garbage") ((fun _ _ => ProbeResult.ok) 0) =
      (.error (), some "garbage") ∧
    stop_process (some "garbage") (fun _ _ => ProbeResult.ok) false false
      "Phoenix" none =
      (.error (),
        { sentTerm := false, termRaised := false, polls := 0,
          sleepTenths := 0, sentKill := false, pidFileDeleted := false,
          lockReleased := false },
        some "garbage", none) :=
  get_pid_malformed_raises "garbage" (fun _ _ => ProbeResult.ok)
    false false "Phoenix" none (by decide)

/-- C1: `DatabaseLock.acquire` opens (creating if absent) the lock file
and tries a non-blocking exclusive flock.  When the lock is already
held it returns `false`, closes the descriptor it opened (`fd = none`,
one more closed descriptor) and leaves the holder's lock and the file
content intact.  On success it returns `true`, holds the lock, and has
truncated the file to the caller's PID.  The call is a total function
of the current holder — `LOCK_NB` never blocks. -/
theorem acquire_nonblocking_exclusive (lk : DatabaseLock) (w : LockWorld)
    (me pid h : Nat) :
    (w.flockHolder = some h →
      (lk.acquire w me pid).1 = false ∧
      (lk.acquire w me pid).2.1.fd = none ∧
      (lk.acquire w me pid).2.2.flockHolder = some h ∧
      (lk.acquire w me pid).2.2.fileContent = w.fileContent ∧
      (lk.acquire w me pid).2.2.fileExists = true ∧
      (lk.acquire w me pid).2.2.closedCount = w.closedCount + 1) ∧
    (w.flockHolder = none →
      (lk.acquire w me pid).1 = true ∧
      (lk.acquire w me pid).2.1.fd = some me ∧
      (lk.acquire w me pid).2.2.flockHolder = some me ∧
      (lk.acquire w me pid).2.2.fileContent = toString pid ++ "\n" ∧
      (lk.acquire w me pid).2.2.fileExists = true ∧
      (lk.acquire w me pid).2.2.closedCount = w.closedCount) := by
  constructor
  · intro hh
    simp [DatabaseLock.acquire, hh]
  · intro hn
    simp [DatabaseLock.acquire, hn]

/-- C1 witness: a lock held by descriptor 7 rejects a second
acquisition and stays held; a free lock is acquired and the caller's
PID 4242 is written. -/
theorem acquire_nonblocking_exclusive_witness :
    (({ fd := none } : DatabaseLock).acquire
        { fileExists := true, fileContent := "7\n", flockHolder := some 7,
          closedCount := 0 } 9 4242).1 = false ∧
    (({ fd := none } : DatabaseLock).acquire
        { fileExists := true, fileContent := "7\n", flockHolder := some 7,
          closedCount := 0 } 9 4242).2.2.flockHolder = some 7 ∧
    (({ fd := none } : DatabaseLock).acquire
        { fileExists := false, fileContent := "", flockHolder := none,
          closedCount := 0 } 9 4242).1 = true ∧
    (({ fd := none } : DatabaseLock).acquire
        { fileExists := false, fileContent := "", flockHolder := none,
          closedCount := 0 } 9 4242).2.2.fileContent =
      toString 4242 ++ "\n" := by
  have h1 := (acquire_nonblocking_exclusive { fd := none }
    { fileExists := true, fileContent := "7\n", flockHolder := some 7,
      closedCount := 0 } 9 4242 7).1 rfl
  have h2 := (acquire_nonblocking_exclusive { fd := none }
    { fileExists := false, fileContent := "", flockHolder := none,
      closedCount := 0 } 9 4242 7).2 rfl
  exact ⟨h1.1, h1.2.2.1, h2.1, h2.2.2.2.1⟩

/-- The world state `__enter__` hands to the body after a successful
acquisition: lock file present, flock held by this call's descriptor,
content truncated to the caller's PID. -/
def enterWorld (w : LockWorld) (me pid : Nat) : LockWorld :=
  { w with fileExists := true, flockHolder := some me,
           fileContent := toString pid ++ "\n" }

/-- On a free lock, the scoped pattern reduces to: run the body on the
acquired world, then release — on both the normal and the raising exit
path. -/
lemma withDatabaseLock_free_eq {α ε : Type} (w : LockWorld) (me pid : Nat)
    (body : LockWorld → Except ε α × LockWorld)
    (hfree : w.flockHolder = none) :
    withDatabaseLock w me pid body =
      ((match (body (enterWorld w me pid)).1 with
        | .ok a => Except.ok a
        | .error e => Except.error (some e)),
        { fd := none },
        { fileExists := false,
          fileContent := (body (enterWorld w me pid)).2.fileContent,
          flockHolder := none,
          closedCount := (body (enterWorld w me pid)).2.closedCount + 1 }) := by
  have hacq : (({ fd := none } : DatabaseLock).acquire w me pid) =
      (true, { fd := some me }, enterWorld w me pid) := by
    simp [DatabaseLock.acquire, enterWorld, hfree]
  simp only [withDatabaseLock, hacq]
  cases hb : (body (enterWorld w me pid)).1 <;> simp [DatabaseLock.release]

/-- C2: a lock acquired through the scoped pattern (`with
DatabaseLock()`) is released on every exit path: whatever the body
does, the handle ends with no descriptor, the flock is no longer held,
a second `release` on the resulting handle changes nothing (it
unlocks/closes nothing), an exception from the body propagates after
the release, and — provided the body does not close descriptors of its
own — exactly one descriptor is closed over the whole scope. -/
theorem withDatabaseLock_releases_on_every_path {α ε : Type}
    (w : LockWorld) (me pid : Nat)
    (body : LockWorld → Except ε α × LockWorld)
    (hfree : w.flockHolder = none) :
    (withDatabaseLock w me pid body).2.1.fd = none ∧
    (withDatabaseLock w me pid body).2.2.flockHolder = none ∧
    DatabaseLock.release (withDatabaseLock w me pid body).2.1
        (withDatabaseLock w me pid body).2.2 =
      ((withDatabaseLock w me pid body).2.1,
        (withDatabaseLock w me pid body).2.2) ∧
    (∀ e : ε,
      (body (enterWorld w me pid)).1 = .error e →
      (withDatabaseLock w me pid body).1 = .error (some e)) ∧
    ((∀ w', ((body w').2).closedCount = w'.closedCount) →
      (withDatabaseLock w me pid body).2.2.closedCount =
        w.closedCount + 1) := by
  rw [withDatabaseLock_free_eq w me pid body hfree]
  refine ⟨rfl, rfl, ?_, ?_, ?_⟩
  · simp [DatabaseLock.release]
  · intro e he
    rw [he]
  · intro hbody
    have h1 := hbody (enterWorld w me pid)
    show (body (enterWorld w me pid)).2.closedCount + 1 = w.closedCount + 1
    rw [h1]
    simp [enterWorld]

/-- C2 witness: a raising body on a free lock — the error propagates,
the descriptor is gone, the flock is free, a second release is a
no-op, and exactly one descriptor was closed. -/
theorem withDatabaseLock_releases_on_every_path_witness :
    (withDatabaseLock (α := Nat)
        { fileExists := false, fileContent := "", flockHolder := none,
          closedCount := 0 } 1 99
        (fun w' => (Except.error (), w'))).2.1.fd = none ∧
    (withDatabaseLock (α := Nat)
        { fileExists := false, fileContent := "", flockHolder := none,
          closedCount := 0 } 1 99
        (fun w' => (Except.error (), w'))).2.2.flockHolder = none ∧
    (withDatabaseLock (α := Nat)
        { fileExists := false, fileContent := "", flockHolder := none,
          closedCount := 0 } 1 99
        (fun w' => (Except.error (), w'))).1 = Except.error (some ()) ∧
    (withDatabaseLock (α := Nat)
        { fileExists := false, fileContent := "", flockHolder := none,
          closedCount := 0 } 1 99
        (fun w' => (Except.error (), w'))).2.2.closedCount = 0 + 1 := by
  have h := withDatabaseLock_releases_on_every_path (α := Nat) (ε := Unit)
    { fileExists := false, fileContent := "", flockHolder := none,
      closedCount := 0 } 1 99 (fun w' => (Except.error (), w')) rfl
  exact ⟨h.1, h.2.1, h.2.2.2.1 () rfl, h.2.2.2.2 (fun _ => rfl)⟩

/-- The graceful-wait loop escalates to SIGKILL exactly when the
process was still alive at every one of its `n` polls. -/
lemma stopLoop_kill_iff (probeAt : Nat → Int → ProbeResult) (pid : Int) :
    ∀ (n t : Nat), (stopLoop probeAt pid t n).1 = true ↔
      ∀ i, i < n → is_process_running (probeAt (t + i)) pid = true := by
  intro n
  induction n with
  | zero =>
    intro t
    simp [stopLoop]
  | succ n ih =>
    intro t
    by_cases h : is_process_running (probeAt t) pid = true
    · have hred : (stopLoop probeAt pid t (n + 1)).1 =
          (stopLoop probeAt pid (t + 1) n).1 := by
        simp [stopLoop, h]
      rw [hred, ih (t + 1)]
      constructor
      · intro hk i hi
        cases i with
        | zero => simpa using h
        | succ j =>
          have hj := hk j (by omega)
          have e : t + 1 + j = t + (j + 1) := by omega
          rwa [e] at hj
      · intro hall j hj
        have hj' := hall (j + 1) (by omega)
        have e : t + (j + 1) = t + 1 + j := by omega
        rwa [e] at hj'
    · have hred : (stopLoop probeAt pid t (n + 1)).1 = false := by
        simp [stopLoop, h]
      rw [hred]
      constructor
      · intro hk
        exact absurd hk (by simp)
      · intro hall
        exact absurd (hall 0 (by omega)) (by simpa using h)

/-- The loop polls and sleeps at most `n` times, and when it escalates
it has polled and slept the full budget. -/
lemma stopLoop_bounds (probeAt : Nat → Int → ProbeResult) (pid : Int) :
    ∀ (n t : Nat), (stopLoop probeAt pid t n).2.1 ≤ n ∧
      (stopLoop probeAt pid t n).2.2 ≤ n ∧
      ((stopLoop probeAt pid t n).1 = true →
        (stopLoop probeAt pid t n).2.1 = n ∧
        (stopLoop probeAt pid t n).2.2 = n) := by
  intro n
  induction n with
  | zero =>
    intro t
    simp [stopLoop]
  | succ n ih =>
    intro t
    by_cases h : is_process_running (probeAt t) pid = true
    · have h1 := ih (t + 1)
      constructor
      · simp only [stopLoop, h, if_true]
        omega
      constructor
      · simp only [stopLoop, h, if_true]
        omega
      · intro hk
        have hk' : (stopLoop probeAt pid (t + 1) n).1 = true := by
          simpa [stopLoop, h] using hk
        have h2 := h1.2.2 hk'
        constructor
        · simp only [stopLoop, h, if_true]
          omega
        · simp only [stopLoop, h, if_true]
          omega
    · constructor
      · simp [stopLoop, h]
      constructor
      · simp [stopLoop, h]
      · intro hk
        exact absurd hk (by simp [stopLoop, h])

/-- C5: `stop_process` on a live target sends SIGTERM, polls liveness
at most 10 times at the 0.1-second interval, escalates to SIGKILL
exactly when the process was still alive at every one of the 10 polls
(having then slept the full 1-second budget), and deletes the PID file
and returns `True` in every case — including when SIGTERM itself
raised `OSError`, and regardless of which signal finally succeeded. -/
theorem stop_process_live_target (s : String)
    (probeAt : Nat → Int → ProbeResult) (termRaises killRaises : Bool)
    (name : String) (dbLock : Option Nat) (pid : Int)
    (hparse : pyInt (pyStrip s) = some pid)
    (halive : is_process_running (probeAt 0) pid = true) :
    ∃ ev : StopEvents,
      stop_process (some s) probeAt termRaises killRaises name dbLock =
        (.ok true, ev, none,
          if name == "Phoenix" && dbLock.isSome then none else dbLock) ∧
      ev.sentTerm = true ∧
      ev.pidFileDeleted = true ∧
      ev.termRaised = termRaises ∧
      (termRaises = true → ev.sentKill = false) ∧
      (termRaises = false →
        (ev.sentKill = true ↔
          ∀ i, i < 10 →
            is_process_running (probeAt (1 + i)) pid = true) ∧
        ev.polls ≤ 10 ∧ ev.sleepTenths ≤ 10 ∧
        (ev.sentKill = true →
          ev.polls = 10 ∧ ev.sleepTenths = 10)) := by
  have hgp : get_pid (some s) (probeAt 0) = (.ok (some pid), some s) := by
    simp [get_pid, hparse, halive]
  cases termRaises with
  | true =>
    refine ⟨{ sentTerm := true,
              termRaised := true,
              polls := 0,
              sleepTenths := 0,
              sentKill := false,
              pidFileDeleted := true,
              lockReleased := name == "Phoenix" && dbLock.isSome },
      ?_, by simp, by simp, by simp, by simp, by simp⟩
    unfold stop_process
    rw [hgp]
    simp
  | false =>
    refine ⟨{ sentTerm := true,
              termRaised := false,
              polls := (stopLoop probeAt pid 1 10).2.1,
              sleepTenths := (stopLoop probeAt pid 1 10).2.2,
              sentKill := (stopLoop probeAt pid 1 10).1,
              pidFileDeleted := true,
              lockReleased := name == "Phoenix" && dbLock.isSome },
      ?_, by simp, by simp, by simp, by simp, ?_⟩
    · unfold stop_process
      rw [hgp]
      simp
    · intro _
      have hk := stopLoop_kill_iff probeAt pid 10 1
      have hb := stopLoop_bounds probeAt pid 10 1
      refine ⟨?_, hb.1, hb.2.1, hb.2.2⟩
      simpa using hk

/-- C5 witness: a live process (PID 321) that ignores SIGTERM — alive
at all 10 polls — is SIGKILLed after the full 10-poll, 1-second
budget, and the PID file is deleted. -/
theorem stop_process_live_target_witness :
    ∃ ev : StopEvents,
      stop_process (some "321") (fun _ _ => ProbeResult.ok) false false
          "Phoenix" none =
        (.ok true, ev,  none,
          if "Phoenix" == "Phoenix" && (none : Option Nat).isSome then none
          else none) ∧
      ev.sentTerm = true ∧
      ev.pidFileDeleted = true ∧
      ev.termRaised = false ∧
      (false = true → ev.sentKill = false) ∧
      (false = false →
        (ev.sentKill = true ↔
          ∀ i, i < 10 →
            is_process_running ((fun _ _ => ProbeResult.ok) (1 + i)) 321 =
              true) ∧
        ev.polls ≤ 10 ∧ ev.sleepTenths ≤ 10 ∧
        (ev.sentKill = true →
          ev.polls = 10 ∧ ev.sleepTenths = 10)) :=
  stop_process_live_target "321" (fun _ _ => ProbeResult.ok) false false
    "Phoenix" none 321 (by decide) (by decide)

/-- C6: both deploy orchestrators branch on current service activity.
When the service is already active, the only unit-state command issued
is the reload signal — the socket unit is neither started nor stopped
and the service unit is not started or stopped either — followed by a
sleep and a re-activation check.  When the service is inactive, the
socket unit is started before the service unit, in that order, followed
by an activation check; the reload signal is never sent on that path. -/
theorem deploy_branches_on_activity (v : Bool) :
    (SvcAction.reloadService ∈ nativeDeployTail true v ∧
      SvcAction.startSocket ∉ nativeDeployTail true v ∧
      SvcAction.startService ∉ nativeDeployTail true v ∧
      SvcAction.stopService ∉ nativeDeployTail true v ∧
      [SvcAction.reloadService, SvcAction.sleepSeconds 2,
        SvcAction.queryServiceActive].Sublist (nativeDeployTail true v)) ∧
    (SvcAction.reloadService ∉ nativeDeployTail false v ∧
      [SvcAction.startSocket, SvcAction.startService,
        SvcAction.queryServiceActive].Sublist (nativeDeployTail false v)) ∧
    (SvcAction.reloadService ∈ limaDeployTail true v ∧
      SvcAction.startSocket ∉ limaDeployTail true v ∧
      SvcAction.startService ∉ limaDeployTail true v ∧
      SvcAction.stopService ∉ limaDeployTail true v ∧
      [SvcAction.reloadService, SvcAction.sleepSeconds 2,
        SvcAction.queryServiceActive].Sublist (limaDeployTail true v)) ∧
    (SvcAction.reloadService ∉ limaDeployTail false v ∧
      [SvcAction.startSocket, SvcAction.startService,
        SvcAction.queryServiceActive].Sublist (limaDeployTail false v)) := by
  cases v <;> decide

/-- C10: a `cmd_down` run that completes leaves the lock file deleted,
for every initial state — in particular when the advisory lock is held
by another live process (`lockHolder` is arbitrary and unchanged:
unlinking does not release a foreign flock). -/
theorem cmd_down_deletes_lock_file (st : DownState) (e : DownEnv)
    (st' : DownState) (h : cmd_down st e = .ok st') :
    st'.lockExists = false ∧ st'.lockHolder = st.lockHolder := by
  unfold cmd_down at h
  cases h1 : stop_process st.viteFile e.probeV e.termRaisesV e.killRaisesV
      "Vite" st.dbLock with
  | mk r1 rest1 =>
    rw [h1] at h
    cases r1 with
    | error u => cases u; simp at h
    | ok b1 =>
      cases rest1 with
      | mk ev1 rest1' =>
        cases rest1' with
        | mk vite' dbLock1 =>
          dsimp only at h
          cases h2 : stop_process st.phoenixFile e.probeP e.termRaisesP
              e.killRaisesP "Phoenix" dbLock1 with
          | mk r2 rest2 =>
            rw [h2] at h
            cases r2 with
            | error u => cases u; simp at h
            | ok b2 =>
              cases rest2 with
              | mk ev2 rest2' =>
                cases rest2' with
                | mk phoenix' dbLock2 =>
                  simp only [Except.ok.injEq] at h
                  subst h
                  constructor
                  · by_cases hr : ev2.lockReleased = true <;>
                      by_cases hl : st.lockExists = true <;>
                      simp_all
                  · rfl

/-- C10 witness: nothing running, lock file present, advisory lock held
by a foreign descriptor 42 — after `cmd_down` the lock file is gone
while the foreign flock holder is untouched. -/
theorem cmd_down_deletes_lock_file_witness :
    ({ viteFile := none, phoenixFile := none, lockExists := false,
       lockHolder := some 42, dbLock := none } : DownState).lockExists =
        false ∧
    ({ viteFile := none, phoenixFile := none, lockExists := false,
       lockHolder := some 42, dbLock := none } : DownState).lockHolder =
      ({ viteFile := none, phoenixFile := none, lockExists := true,
         lockHolder := some 42, dbLock := none } : DownState).lockHolder :=
  cmd_down_deletes_lock_file
    { viteFile := none, phoenixFile := none, lockExists := true,
      lockHolder := some 42, dbLock := none }
    { probeV := fun _ _ => ProbeResult.ok,
      probeP := fun _ _ => ProbeResult.ok,
      termRaisesV := false, killRaisesV := false,
      termRaisesP := false, killRaisesP := false }
    { viteFile := none, phoenixFile := none, lockExists := false,
      lockHolder := some 42, dbLock := none }
    (by rfl)

/-- Two concatenations whose left parts already disagree on their
first `n` characters are different strings. -/
lemma append_ne_of_take_ne (p q : String) (n : Nat)
    (hp : n ≤ p.data.length) (hq : n ≤ q.data.length)
    (hne : p.data.take n ≠ q.data.take n) (a b : String) :
    p ++ a ≠ q ++ b := by
  intro h
  apply hne
  have hd : (p ++ a).data = (q ++ b).data := congrArg String.data h
  have hpa : (p ++ a).data = p.data ++ a.data := by
    cases p; cases a; rfl
  have hqb : (q ++ b).data = q.data ++ b.data := by
    cases q; cases b; rfl
  rw [hpa, hqb] at hd
  calc p.data.take n
      = (p.data ++ a.data).take n := (List.take_append_of_le_length hp).symm
    _ = (q.data ++ b.data).take n := by rw [hd]
    _ = q.data.take n := List.take_append_of_le_length hq

/-- An `EnvironmentFile=` line is never an `Environment=LLM_GATEWAY=`
line. -/
lemma credFile_ne_gateway (a b : String) :
    "EnvironmentFile=" ++ a ≠ "Environment=LLM_GATEWAY=" ++ b :=
  append_ne_of_take_ne _ _ 12 (by decide) (by decide) (by decide) a b

/-- The DB-path line is never an `Environment=LLM_GATEWAY=` line. -/
lemma dbPath_ne_gateway (a b : String) :
    "Environment=PHOENIX_DB_PATH=" ++ a ≠
      "Environment=LLM_GATEWAY=" ++ b :=
  append_ne_of_take_ne _ _ 13 (by decide) (by decide) (by decide) a b

/-- The version line is never an `Environment=LLM_GATEWAY=` line. -/
lemma version_ne_gateway (a b : String) :
    "Environment=PHOENIX_VERSION=" ++ a ≠
      "Environment=LLM_GATEWAY=" ++ b :=
  append_ne_of_take_ne _ _ 13 (by decide) (by decide) (by decide) a b

/-- The DB-path line is never an `EnvironmentFile=` line. -/
lemma dbPath_ne_credFile (a b : String) :
    "Environment=PHOENIX_DB_PATH=" ++ a ≠ "EnvironmentFile=" ++ b :=
  append_ne_of_take_ne _ _ 12 (by decide) (by decide) (by decide) a b

/-- The version line is never an `EnvironmentFile=` line. -/
lemma version_ne_credFile (a b : String) :
    "Environment=PHOENIX_VERSION=" ++ a ≠ "EnvironmentFile=" ++ b :=
  append_ne_of_take_ne _ _ 12 (by decide) (by decide) (by decide) a b

/-- C7: for every `SystemdConfig`, the generated service unit's
environment block contains an `EnvironmentFile=` directive exactly when
`env_file` is set, an inline `Environment=LLM_GATEWAY=` variable
exactly when `env_file` is unset and `llm_gateway` is set, and never
both — in particular not when both fields are populated. -/
theorem generate_service_cred_delivery_exclusive (config : SystemdConfig)
    (version : String) :
    (¬ ((∃ l ∈ serviceEnvLines config version, isCredFileLine l) ∧
        (∃ l ∈ serviceEnvLines config version, isGatewayLine l))) ∧
    ((∃ l ∈ serviceEnvLines config version, isCredFileLine l) ↔
      config.env_file.isSome = true) ∧
    ((∃ l ∈ serviceEnvLines config version, isGatewayLine l) ↔
      config.env_file = none ∧ config.llm_gateway.isSome = true) := by
  obtain ⟨u, d, i, pt, ef, lg⟩ := config
  cases ef with
  | some f =>
    have hnogw :
        ¬ (∃ l ∈ serviceEnvLines
            { user := u, db_path := d, install_dir := i, port := pt,
              env_file := some f, llm_gateway := lg } version,
            isGatewayLine l) := by
      rintro ⟨l, hl, g, hg⟩
      simp only [serviceEnvLines, List.mem_cons,
        List.not_mem_nil, or_false] at hl
      rcases hl with h1 | h1 | h1 <;> rw [h1] at hg
      · exact credFile_ne_gateway f g hg
      · exact dbPath_ne_gateway d g hg
      · exact version_ne_gateway version g hg
    refine ⟨fun hand => hnogw hand.2, ?_, ?_⟩
    · simp only [Option.isSome_some, iff_true]
      refine ⟨"EnvironmentFile=" ++ f, ?_, f, rfl⟩
      simp [serviceEnvLines]
    · simp only [Option.some_ne_none, false_and, iff_false]
      exact hnogw
  | none =>
    cases lg with
    | some g =>
      have hnocred :
          ¬ (∃ l ∈ serviceEnvLines
              { user := u, db_path := d, install_dir := i, port := pt,
                env_file := none, llm_gateway := some g } version,
              isCredFileLine l) := by
        rintro ⟨l, hl, f, hf⟩
        simp only [serviceEnvLines, List.mem_append, List.mem_cons,
          List.not_mem_nil, or_false] at hl
        rcases hl with (h1 | h1) | h1 <;> rw [h1] at hf
        · exact dbPath_ne_credFile d f hf
        · exact version_ne_credFile version f hf
        · exact (credFile_ne_gateway f g) hf.symm
      refine ⟨fun hand => hnocred hand.1, ?_, ?_⟩
      · exact iff_of_false hnocred (by simp)
      · simp only [Option.isSome_some, true_and, iff_true]
        refine ⟨"Environment=LLM_GATEWAY=" ++ g, ?_, g, rfl⟩
        simp [serviceEnvLines]
    | none =>
      have hnocred :
          ¬ (∃ l ∈ serviceEnvLines
              { user := u, db_path := d, install_dir := i, port := pt,
                env_file := none, llm_gateway := none } version,
              isCredFileLine l) := by
        rintro ⟨l, hl, f, hf⟩
        simp only [serviceEnvLines, List.mem_cons,
          List.not_mem_nil, or_false] at hl
        rcases hl with h1 | h1 <;> rw [h1] at hf
        · exact dbPath_ne_credFile d f hf
        · exact version_ne_credFile version f hf
      have hnogw :
          ¬ (∃ l ∈ serviceEnvLines
              { user := u, db_path := d, install_dir := i, port := pt,
                env_file := none, llm_gateway := none } version,
              isGatewayLine l) := by
        rintro ⟨l, hl, g, hg⟩
        simp only [serviceEnvLines, List.mem_cons,
          List.not_mem_nil, or_false] at hl
        rcases hl with h1 | h1 <;> rw [h1] at hg
        · exact dbPath_ne_gateway d g hg
        · exact version_ne_gateway version g hg
      refine ⟨fun hand => hnocred hand.1, ?_, ?_⟩
      · exact iff_of_false hnocred (by simp)
      · exact iff_of_false hnogw (by simp)

end PhoenixDev
